import Mathlib

/-!
Shallow embedding of `misc/jobserver_pool.py` from the ninja-build/ninja
repository: a script that creates a GNU-Make-jobserver token pool (Posix
pipe, Posix FIFO, or Win32 semaphore backend), advertises it through the
`MAKEFLAGS` environment variable, runs a supervised command, and audits
on success that all job tokens were returned to the pool.

Machine state the script interacts with (file descriptors, pipe buffer
contents, the parent environment, the child's exit code) is passed
explicitly; stderr output is collected as a list of strings.
-/

namespace JobserverPool

/-- An environment block (`os.environ` / the `env` dict): a map from
variable names to values. -/
def Env := String → Option String

/-- `env[key] = value` on a Python dict: pointwise update. -/
def Env.set (e : Env) (key value : String) : Env :=
  fun k => if k = key then some value else e k

/-- The empty environment, used to build concrete test inputs. -/
def envNil : Env := fun _ => none

/-- The byte written for each job token: `b"x"` (ASCII 120). -/
def tokenByte : UInt8 := 120

/-- The `MAKEFLAGS` value built by `create_pipe`:
`f" -j{jobs_count} --jobserver-fds={read_fd},{write_fd} --jobserver-auth={read_fd},{write_fd}"`. -/
def pipeMakeflags (jobs_count : Int) (read_fd write_fd : Nat) : String :=
  " -j" ++ toString jobs_count ++ " --jobserver-fds=" ++ toString read_fd ++ ","
    ++ toString write_fd ++ " --jobserver-auth=" ++ toString read_fd ++ ","
    ++ toString write_fd

/-- The `MAKEFLAGS` value built by `create_fifo`:
`f" -j{jobs_count} --jobserver-auth=fifo:" + path`. -/
def fifoMakeflags (jobs_count : Int) (path : String) : String :=
  " -j" ++ toString jobs_count ++ " --jobserver-auth=fifo:" ++ path

/-- The `MAKEFLAGS` value built by `create_sem`:
`f" -j{jobs_count} --jobserver-auth=" + sem_name`. -/
def semMakeflags (jobs_count : Int) (sem_name : String) : String :=
  " -j" ++ toString jobs_count ++ " --jobserver-auth=" ++ sem_name

/-- A Posix pipe/FIFO backend as `create_pipe` / `create_fifo` leave it:
the two descriptors, the bytes sitting in the kernel pipe buffer, and the
modified environment for the child. -/
structure PipeBackend where
  read_fd : Nat
  write_fd : Nat
  buffer : List UInt8
  env : Env

/-- `create_pipe(jobs_count)`: create a pipe (descriptors supplied by the
OS, here as `fds`), `assert jobs_count > 0` (modelled as `none` on
failure), write `(jobs_count - 1) * b"x"` into the write end, and set
`MAKEFLAGS` in a copy of `os.environ`. -/
def create_pipe (environ : Env) (fds : Nat × Nat) (jobs_count : Int) :
    Option PipeBackend :=
  if 0 < jobs_count then
    some { read_fd := fds.1
           write_fd := fds.2
           buffer := List.replicate (jobs_count - 1).toNat tokenByte
           env := Env.set environ "MAKEFLAGS" (pipeMakeflags jobs_count fds.1 fds.2) }
  else none

/-- `create_fifo(path, jobs_count)`: make the FIFO at `path`, open both
ends (descriptors supplied by the OS as `fds`), `assert jobs_count > 0`
(modelled as `none`), write `(jobs_count - 1) * b"x"`, and set
`MAKEFLAGS` in a copy of `os.environ`. -/
def create_fifo (environ : Env) (fds : Nat × Nat) (path : String)
    (jobs_count : Int) : Option PipeBackend :=
  if 0 < jobs_count then
    some { read_fd := fds.1
           write_fd := fds.2
           buffer := List.replicate (jobs_count - 1).toNat tokenByte
           env := Env.set environ "MAKEFLAGS" (fifoMakeflags jobs_count path) }
  else none

/-- A Win32 semaphore: current count and the maximum count fixed at
creation. -/
structure Semaphore where
  count : Nat
  maxCount : Nat
  deriving DecidableEq, Repr

/-- `win32event.ReleaseSemaphore(handle, k)`: add `k` to the count and
return the count immediately prior to the call; fails
(`ERROR_TOO_MANY_POSTS`, raised as an exception by pywin32) when the
result would exceed the maximum count. -/
def releaseSemaphore (s : Semaphore) (k : Nat) :
    Except String (Nat × Semaphore) :=
  if s.count + k ≤ s.maxCount then
    Except.ok (s.count, { s with count := s.count + k })
  else
    Except.error "ERROR_TOO_MANY_POSTS"

/-- `create_sem(sem_name, jobs_count)`: `assert jobs_count > 0` (modelled
as `none`), `CreateSemaphore(None, jobs_count - 1, jobs_count - 1,
sem_name)`, and set `MAKEFLAGS` in a copy of `os.environ`. -/
def create_sem (environ : Env) (sem_name : String) (jobs_count : Int) :
    Option (Semaphore × Env) :=
  if 0 < jobs_count then
    some ({ count := (jobs_count - 1).toNat, maxCount := (jobs_count - 1).toNat },
          Env.set environ "MAKEFLAGS" (semMakeflags jobs_count sem_name))
  else none

/-- Stderr message of `check_sem_count` for a deficit:
`f"ERROR: {expected_count - read_count} were missing from the jobs pool (got {read_count}, expected {expected_count})"`. -/
def semMissingMsg (deficit got expected : Int) : String :=
  "ERROR: " ++ toString deficit ++ " were missing from the jobs pool (got "
    ++ toString got ++ ", expected " ++ toString expected ++ ")"

/-- Stderr message of `check_sem_count` for a surplus:
`f"ERROR: {read_count - expected_count} extra tokens were released to the jobs pool (got {read_count}, expected {expected_count})"`. -/
def semExtraMsg (surplus got expected : Int) : String :=
  "ERROR: " ++ toString surplus ++ " extra tokens were released to the jobs pool (got "
    ++ toString got ++ ", expected " ++ toString expected ++ ")"

/-- `check_sem_count(handle, jobs_count)`: return 0 when
`jobs_count <= 1`; otherwise measure via a single
`ReleaseSemaphore(handle, 1)` and compare the returned (pre-increment)
count against `expected_count = jobs_count - 1`.  The result carries the
exit code, the semaphore state after the call, and the stderr lines. -/
def check_sem_count (handle : Semaphore) (jobs_count : Int) :
    Except String (Int × Semaphore × List String) :=
  if jobs_count ≤ 1 then
    Except.ok (0, handle, [])
  else
    let expected_count : Int := jobs_count - 1
    match releaseSemaphore handle 1 with
    | Except.error e => Except.error e
    | Except.ok (read_count, handle1) =>
      if (read_count : Int) < expected_count then
        Except.ok (1, handle1,
          [semMissingMsg (expected_count - read_count) read_count expected_count])
      else if expected_count < (read_count : Int) then
        Except.ok (1, handle1,
          [semExtraMsg ((read_count : Int) - expected_count) read_count expected_count])
      else
        Except.ok (0, handle1, [])

/-- What `os.read(read_fd, 1)` does once the immediately available bytes
are exhausted on the non-blocking descriptor: returns `b""` (all write
ends closed) or raises `BlockingIOError`.  Both terminate the drain
loop. -/
inductive DrainEnd
  | eof
  | wouldBlock
  deriving DecidableEq, Repr

/-- The read end of the pipe/FIFO as `check_pipe_tokens` sees it after
`os.set_blocking(read_fd, False)`: the bytes immediately available, and
what a read reports after they run out. -/
structure PipeReadEnd where
  available : List UInt8
  atEnd : DrainEnd
  deriving DecidableEq, Repr

/-- The `while True` drain loop of `check_pipe_tokens`: read one byte at
a time, incrementing `read_count`, until a zero-length read or
`BlockingIOError` breaks the loop. -/
def drain : List UInt8 → DrainEnd → Nat → Nat
  | [], _, read_count => read_count
  | _ :: rest, e, read_count => drain rest e (read_count + 1)

/-- Stderr message of `check_pipe_tokens` for a deficit:
`f"ERROR: {expected_count - read_count} tokens were missing from the jobs pool (got {read_count}, expected {expected_count})"`. -/
def pipeMissingMsg (deficit got expected : Int) : String :=
  "ERROR: " ++ toString deficit ++ " tokens were missing from the jobs pool (got "
    ++ toString got ++ ", expected " ++ toString expected ++ ")"

/-- Stderr message of `check_pipe_tokens` for a surplus:
`f"ERROR: {read_count - expected_count} extra tokens were released to the jobs pool (got {read_count}, expected {expected_count})"`. -/
def pipeExtraMsg (surplus got expected : Int) : String :=
  "ERROR: " ++ toString surplus ++ " extra tokens were released to the jobs pool (got "
    ++ toString got ++ ", expected " ++ toString expected ++ ")"

/-- Observable outcome of `check_pipe_tokens`: its return value (the
exit code), how many tokens it read out of the reservoir, whether it got
as far as the count comparison (false when `jobs_count <= 1` short-circuits),
and its stderr lines. -/
structure CheckOutcome where
  code : Int
  tokensRead : Nat
  compared : Bool
  stderr : List String
  deriving DecidableEq, Repr

/-- `check_pipe_tokens(read_fd, jobs_count)`: return 0 when
`jobs_count <= 1`; otherwise drain the reservoir non-blockingly, counting
the bytes read, and compare against `expected_count = jobs_count - 1`. -/
def check_pipe_tokens (pipe : PipeReadEnd) (jobs_count : Int) : CheckOutcome :=
  if jobs_count ≤ 1 then
    { code := 0, tokensRead := 0, compared := false, stderr := [] }
  else
    let expected_count : Int := jobs_count - 1
    let read_count := drain pipe.available pipe.atEnd 0
    if (read_count : Int) < expected_count then
      { code := 1, tokensRead := read_count, compared := true,
        stderr := [pipeMissingMsg (expected_count - read_count) read_count expected_count] }
    else if expected_count < (read_count : Int) then
      { code := 1, tokensRead := read_count, compared := true,
        stderr := [pipeExtraMsg ((read_count : Int) - expected_count) read_count expected_count] }
    else
      { code := 0, tokensRead := read_count, compared := true, stderr := [] }

/-- State of the drain loop of `check_pipe_tokens` between iterations:
remaining available bytes, the byte counter, and whether a `break` was
reached. -/
structure LoopState where
  buffer : List UInt8
  atEnd : DrainEnd
  readCount : Nat
  done : Bool
  deriving DecidableEq, Repr

/-- One iteration of the `while True` loop: a single `os.read(read_fd, 1)`
that either consumes one byte (incrementing `read_count`) or breaks — on
a zero-length read as well as on `BlockingIOError`. -/
def loopStep (s : LoopState) : LoopState :=
  if s.done then s
  else
    match s.buffer with
    | [] => { s with done := true }
    | _ :: rest => { s with buffer := rest, readCount := s.readCount + 1 }

/-- `n` iterations of the drain loop. -/
def loopIter : Nat → LoopState → LoopState
  | 0, s => s
  | n + 1, s => loopIter n (loopStep s)

/-- Parsed command line of the Posix variant of the script. -/
structure Args where
  pipe : Bool
  fifo : String
  no_check : Bool
  help_usage : Bool
  jobs_count : Int
  command : List String

/-- The ambient machine state `main` interacts with: the parent
environment, `os.path.abspath`, the descriptors the OS hands out, the
supervised command's exit code, and the reservoir contents at the moment
the child exits (descendants mutate the pool directly through the OS). -/
structure World where
  environ : Env
  absPath : String → String
  pipeFds : Nat × Nat
  childExit : Int
  tokensAtExit : List UInt8
  atEnd : DrainEnd

/-- Observable outcome of a run of `main` (Posix): the process exit
code, whether a child was spawned and with which environment (`none`
meaning the parent environment was inherited unmodified), whether a
backend was created, how many tokens the audit consumed, whether the
audit reached its count comparison, and stderr. -/
structure MainResult where
  exitCode : Int
  childSpawned : Bool
  childEnv : Option Env
  backendCreated : Bool
  tokensRead : Nat
  auditCompared : Bool
  stderr : List String

/-- Result of `print_usage()` followed by `return`: exit code 0, no
child, no backend. -/
def usageResult : MainResult :=
  { exitCode := 0, childSpawned := false, childEnv := none,
    backendCreated := false, tokensRead := 0, auditCompared := false,
    stderr := [] }

/-- `parser.error(...)`: argparse prints the message to stderr and calls
`sys.exit(2)`. -/
def parserErrorResult : MainResult :=
  { exitCode := 2, childSpawned := false, childEnv := none,
    backendCreated := false, tokensRead := 0, auditCompared := false,
    stderr := ["This script requires at least one command argument!"] }

/-- The unreachable fall-through when a `create_*` assertion fires even
though `jobs_count > 0` was already established: an uncaught
`AssertionError` makes Python exit with code 1. -/
def assertCrash : MainResult :=
  { exitCode := 1, childSpawned := false, childEnv := none,
    backendCreated := false, tokensRead := 0, auditCompared := false,
    stderr := ["AssertionError"] }

/-- The tail of `main` once a backend is up (`ret = subprocess.run(...)`
onwards): run the command with the modified environment `envChild`, then
audit with `check_pipe_tokens` exactly when the child exited 0 and
`--no-check` was not given. -/
def runResult (envChild : Env) (args : Args) (w : World) : MainResult :=
  if w.childExit = 0 ∧ args.no_check = false then
    let r := check_pipe_tokens { available := w.tokensAtExit, atEnd := w.atEnd }
               args.jobs_count
    { exitCode := r.code, childSpawned := true, childEnv := some envChild,
      backendCreated := true, tokensRead := r.tokensRead,
      auditCompared := r.compared, stderr := r.stderr }
  else
    { exitCode := w.childExit, childSpawned := true, childEnv := some envChild,
      backendCreated := true, tokensRead := 0, auditCompared := false,
      stderr := [] }

/-- `main()` of the Posix variant: handle `--help-usage`, reject an empty
command via `parser.error`, short-circuit `jobs_count <= 0` by running the
command with the environment untouched, and otherwise create the FIFO
backend (default) or the pipe backend (`--pipe`) and continue with
`runResult`. -/
def main (args : Args) (w : World) : MainResult :=
  if args.help_usage then usageResult
  else if args.command = [] then parserErrorResult
  else if args.jobs_count ≤ 0 then
    { exitCode := w.childExit, childSpawned := true, childEnv := none,
      backendCreated := false, tokensRead := 0, auditCompared := false,
      stderr := [] }
  else
    match (if args.pipe then create_pipe w.environ w.pipeFds args.jobs_count
           else create_fifo w.environ w.pipeFds (w.absPath args.fifo) args.jobs_count) with
    | none => assertCrash
    | some b => runResult b.env args w

/-! Helper lemmas about the drain loop and the checkers. -/

lemma drain_eq (l : List UInt8) (e : DrainEnd) (c : Nat) :
    drain l e c = l.length + c := by
  induction l generalizing c with
  | nil => simp [drain]
  | cons a rest ih =>
    simp only [drain, ih, List.length_cons]
    omega

lemma drain_zero (l : List UInt8) (e : DrainEnd) : drain l e 0 = l.length := by
  simp [drain_eq]

lemma check_pipe_compared (pipe : PipeReadEnd) (n : Int) (h : ¬ n ≤ 1) :
    (check_pipe_tokens pipe n).compared = true := by
  simp only [check_pipe_tokens, if_neg h]
  split_ifs <;> rfl

lemma check_pipe_trivial (pipe : PipeReadEnd) (n : Int) (h : n ≤ 1) :
    check_pipe_tokens pipe n =
      { code := 0, tokensRead := 0, compared := false, stderr := [] } := by
  simp [check_pipe_tokens, h]

/-- C1: for every jobs_count > 0, immediately after backend creation the
reservoir holds exactly jobs_count - 1 tokens: create_pipe and
create_fifo write exactly jobs_count - 1 single-byte tokens into the
write end, and create_sem creates the semaphore with initial (and
maximum) count jobs_count - 1; in particular jobs_count == 1 yields a
reservoir holding 0 tokens. -/
theorem c1_initial_token_count (environ : Env) (fds : Nat × Nat)
    (path sem_name : String) (jobs_count : Int) (h : 0 < jobs_count) :
    ((create_pipe environ fds jobs_count).map fun b => (b.buffer.length : Int)) =
      some (jobs_count - 1) ∧
    ((create_fifo environ fds path jobs_count).map fun b => (b.buffer.length : Int)) =
      some (jobs_count - 1) ∧
    ((create_sem environ sem_name jobs_count).map
        fun p => ((p.1.count : Int), (p.1.maxCount : Int))) =
      some (jobs_count - 1, jobs_count - 1) := by
  have h1 : ((jobs_count - 1).toNat : Int) = jobs_count - 1 :=
    Int.toNat_of_nonneg (by omega)
  refine ⟨?_, ?_, ?_⟩ <;>
    simp [create_pipe, create_fifo, create_sem, h, h1] <;> omega

/-- Witness for C1 at jobs_count = 1: a one-job pool starts with zero
tokens in each backend. -/
theorem c1_initial_token_count_witness :
    (0 : Int) < 1 ∧
    ((create_pipe envNil (3, 4) 1).map fun b => (b.buffer.length : Int)) = some 0 ∧
    ((create_fifo envNil (3, 4) "jobserver_pool" 1).map
        fun b => (b.buffer.length : Int)) = some 0 ∧
    ((create_sem envNil "jobserver_pool" 1).map
        fun p => ((p.1.count : Int), (p.1.maxCount : Int))) = some (0, 0) := by
  have h := c1_initial_token_count envNil (3, 4) "jobserver_pool"
    "jobserver_pool" 1 (by decide)
  exact ⟨by decide, by simpa using h.1, by simpa using h.2.1, by simpa using h.2.2⟩

/-- C2: when the count comparison runs (jobs_count > 1 and, for the
semaphore, the measuring increment succeeds), the checker compares the
measured count m against the expected count e = jobs_count - 1: m = e
yields exit code 0; m < e prints an error carrying exactly the deficit
e - m together with m and e and yields 1; m > e prints an error carrying
exactly the surplus m - e together with m and e and yields the same 1. -/
theorem c2_audit_comparison (pipe : PipeReadEnd) (s : Semaphore) (n : Int)
    (hn : 1 < n) (hs : s.count + 1 ≤ s.maxCount) :
    (((pipe.available.length : Int) = n - 1 →
        check_pipe_tokens pipe n =
          { code := 0, tokensRead := pipe.available.length, compared := true,
            stderr := [] }) ∧
     (((pipe.available.length : Int) < n - 1 →
        check_pipe_tokens pipe n =
          { code := 1, tokensRead := pipe.available.length, compared := true,
            stderr := [pipeMissingMsg (n - 1 - pipe.available.length)
              pipe.available.length (n - 1)] }) ∧
      (n - 1 < (pipe.available.length : Int) →
        check_pipe_tokens pipe n =
          { code := 1, tokensRead := pipe.available.length, compared := true,
            stderr := [pipeExtraMsg ((pipe.available.length : Int) - (n - 1))
              pipe.available.length (n - 1)] }))) ∧
    (((s.count : Int) = n - 1 →
        check_sem_count s n =
          Except.ok (0, { s with count := s.count + 1 }, [])) ∧
     (((s.count : Int) < n - 1 →
        check_sem_count s n =
          Except.ok (1, { s with count := s.count + 1 },
            [semMissingMsg (n - 1 - s.count) s.count (n - 1)])) ∧
      (n - 1 < (s.count : Int) →
        check_sem_count s n =
          Except.ok (1, { s with count := s.count + 1 },
            [semExtraMsg ((s.count : Int) - (n - 1)) s.count (n - 1)])))) := by
  have hn1 : ¬ n ≤ 1 := not_le.mpr hn
  have hrel : releaseSemaphore s 1 =
      Except.ok (s.count, { s with count := s.count + 1 }) := by
    simp [releaseSemaphore, hs]
  refine ⟨⟨?_, ?_, ?_⟩, ⟨?_, ?_, ?_⟩⟩ <;> intro hm
  · simp only [check_pipe_tokens, if_neg hn1, drain_zero]
    rw [if_neg (by omega), if_neg (by omega)]
  · simp only [check_pipe_tokens, if_neg hn1, drain_zero]
    rw [if_pos hm]
  · simp only [check_pipe_tokens, if_neg hn1, drain_zero]
    rw [if_neg (by omega), if_pos hm]
  · simp only [check_sem_count, if_neg hn1, hrel]
    rw [if_neg (by omega), if_neg (by omega)]
  · simp only [check_sem_count, if_neg hn1, hrel]
    rw [if_pos hm]
  · simp only [check_sem_count, if_neg hn1, hrel]
    rw [if_neg (by omega), if_pos hm]

/-- Witness for C2: a pipe reservoir one token short and a semaphore
three tokens over, both with jobs_count = 3. -/
theorem c2_audit_comparison_witness :
    (1 : Int) < 3 ∧ (5 : Nat) + 1 ≤ 9 ∧
    check_pipe_tokens { available := [tokenByte], atEnd := DrainEnd.eof } 3 =
      { code := 1, tokensRead := 1, compared := true,
        stderr := ["ERROR: 1 tokens were missing from the jobs pool (got 1, expected 2)"] } ∧
    check_sem_count { count := 5, maxCount := 9 } 3 =
      Except.ok (1, { count := 6, maxCount := 9 },
        ["ERROR: 3 extra tokens were released to the jobs pool (got 5, expected 2)"]) := by
  have h := c2_audit_comparison { available := [tokenByte], atEnd := DrainEnd.eof }
    { count := 5, maxCount := 9 } 3 (by decide) (by decide)
  refine ⟨by decide, by decide, ?_, ?_⟩
  · rw [h.1.2.1 (by decide)]
    decide
  · rw [h.2.2.2 (by decide)]
    simp only [Except.ok.injEq]
    decide

/-! Bridging lemmas reducing `main` on each of its paths. -/

lemma main_noop_eq (args : Args) (w : World) (hc : args.command ≠ [])
    (hu : args.help_usage = false) (hj : args.jobs_count ≤ 0) :
    main args w =
      { exitCode := w.childExit, childSpawned := true, childEnv := none,
        backendCreated := false, tokensRead := 0, auditCompared := false,
        stderr := [] } := by
  simp [main, hu, hc, hj]

lemma main_fifo_eq (args : Args) (w : World) (hc : args.command ≠ [])
    (hu : args.help_usage = false) (hp : args.pipe = false)
    (hj : 0 < args.jobs_count) :
    main args w =
      runResult (Env.set w.environ "MAKEFLAGS"
        (fifoMakeflags args.jobs_count (w.absPath args.fifo))) args w := by
  simp [main, hu, hc, hp, not_le.mpr hj, create_fifo, hj]

lemma main_pipe_eq (args : Args) (w : World) (hc : args.command ≠ [])
    (hu : args.help_usage = false) (hp : args.pipe = true)
    (hj : 0 < args.jobs_count) :
    main args w =
      runResult (Env.set w.environ "MAKEFLAGS"
        (pipeMakeflags args.jobs_count w.pipeFds.1 w.pipeFds.2)) args w := by
  simp [main, hu, hc, hp, not_le.mpr hj, create_pipe, hj]

/-- C3: the conservation audit reaches its comparison if and only if the
supervised command exited 0, auditing was not disabled via --no-check,
and jobs_count > 1; in every other case the child's exit code is
returned unchanged and no tokens are read from the reservoir. -/
theorem c3_audit_condition (args : Args) (w : World)
    (hc : args.command ≠ []) (hu : args.help_usage = false) :
    ((main args w).auditCompared = true ↔
      (w.childExit = 0 ∧ args.no_check = false ∧ 1 < args.jobs_count)) ∧
    (¬ (w.childExit = 0 ∧ args.no_check = false ∧ 1 < args.jobs_count) →
      (main args w).exitCode = w.childExit ∧ (main args w).tokensRead = 0) := by
  by_cases hj : args.jobs_count ≤ 0
  · rw [main_noop_eq args w hc hu hj]
    constructor
    · constructor
      · intro h
        simp at h
      · rintro ⟨-, -, h3⟩
        omega
    · intro _
      exact ⟨rfl, rfl⟩
  · have hj1 : 0 < args.jobs_count := by omega
    have hm : ∃ e : Env, main args w = runResult e args w := by
      by_cases hp : args.pipe
      · exact ⟨_, main_pipe_eq args w hc hu hp hj1⟩
      · exact ⟨_, main_fifo_eq args w hc hu (by simpa using hp) hj1⟩
    obtain ⟨e, hm⟩ := hm
    rw [hm]
    unfold runResult
    split_ifs with hce
    · by_cases hn : args.jobs_count ≤ 1
      · rw [check_pipe_trivial _ _ hn]
        constructor
        · constructor
          · intro h
            simp at h
          · rintro ⟨-, -, h3⟩
            omega
        · intro _
          exact ⟨hce.1.symm, rfl⟩
      · have hn1 : 1 < args.jobs_count := by omega
        constructor
        · show (check_pipe_tokens { available := w.tokensAtExit, atEnd := w.atEnd }
            args.jobs_count).compared = true ↔ _
          rw [check_pipe_compared _ _ hn]
          simp [hce.1, hce.2, hn1]
        · intro h
          exact absurd ⟨hce.1, hce.2, hn1⟩ h
    · constructor
      · constructor
        · intro h
          simp at h
        · rintro ⟨h1, h2, -⟩
          exact absurd ⟨h1, h2⟩ hce
      · intro _
        exact ⟨rfl, rfl⟩

/-- Concrete arguments for witnesses: default FIFO mode, three jobs, a
command given. -/
def argsA : Args :=
  { pipe := false, fifo := "jobserver_pool", no_check := false,
    help_usage := false, jobs_count := 3, command := ["make"] }

/-- Concrete world for witnesses: empty parent environment, identity
abspath, descriptors 3 and 4, a child that exited 7 leaving an empty
reservoir. -/
def worldA : World :=
  { environ := envNil, absPath := id, pipeFds := (3, 4), childExit := 7,
    tokensAtExit := [], atEnd := DrainEnd.eof }

/-- Witness for C3: with a failing child (exit 7) the audit never runs
and the exit code is propagated unchanged. -/
theorem c3_audit_condition_witness :
    argsA.command ≠ [] ∧ argsA.help_usage = false ∧
    (((main argsA worldA).auditCompared = true ↔
        (worldA.childExit = 0 ∧ argsA.no_check = false ∧ 1 < argsA.jobs_count)) ∧
     (¬ (worldA.childExit = 0 ∧ argsA.no_check = false ∧ 1 < argsA.jobs_count) →
        (main argsA worldA).exitCode = worldA.childExit ∧
        (main argsA worldA).tokensRead = 0)) :=
  ⟨by decide, by decide, c3_audit_condition argsA worldA (by decide) (by decide)⟩

/-- C4 counterexample: in pipe mode with jobs_count = 2 and descriptors
3 and 4 the advertised value is not the two-field
" -j2 --jobserver-auth=3,4" the claim describes: it carries an
additional legacy --jobserver-fds field. -/
theorem c4_counterexample :
    ((create_pipe envNil (3, 4) 2).map fun b => b.env "MAKEFLAGS") =
      some (some " -j2 --jobserver-fds=3,4 --jobserver-auth=3,4") ∧
    ((create_pipe envNil (3, 4) 2).map fun b => b.env "MAKEFLAGS") ≠
      some (some " -j2 --jobserver-auth=3,4") := by
  constructor <;> decide

/-- C4 (amended): for every jobs_count > 0 in pipe mode, the advertised
value is " -j<N> --jobserver-fds=<read-fd>,<write-fd>
--jobserver-auth=<read-fd>,<write-fd>": the -j field, a legacy
--jobserver-fds field, and the --jobserver-auth field, each carrying the
two descriptor numbers. -/
theorem c4_pipe_makeflags_value (environ : Env) (fds : Nat × Nat) (n : Int)
    (h : 0 < n) :
    ((create_pipe environ fds n).map fun b => b.env "MAKEFLAGS") =
      some (some (" -j" ++ toString n ++ " --jobserver-fds=" ++ toString fds.1
        ++ "," ++ toString fds.2 ++ " --jobserver-auth=" ++ toString fds.1
        ++ "," ++ toString fds.2)) := by
  simp [create_pipe, h, Env.set, pipeMakeflags]

/-- Witness for C4 (amended) at jobs_count = 2, descriptors 3 and 4. -/
theorem c4_pipe_makeflags_value_witness :
    (0 : Int) < 2 ∧
    ((create_pipe envNil (3, 4) 2).map fun b => b.env "MAKEFLAGS") =
      some (some (" -j" ++ toString (2 : Int) ++ " --jobserver-fds="
        ++ toString (3 : Nat) ++ "," ++ toString (4 : Nat)
        ++ " --jobserver-auth=" ++ toString (3 : Nat) ++ ","
        ++ toString (4 : Nat))) :=
  ⟨by decide, c4_pipe_makeflags_value envNil (3, 4) 2 (by decide)⟩

/-- C5: for every jobs_count <= 0 the run is a pure no-op with respect to
the pool: no backend is created, the child runs with the parent
environment inherited unmodified, no audit is performed, and the child's
exit code is reported exactly. -/
theorem c5_nonpositive_noop (args : Args) (w : World)
    (hc : args.command ≠ []) (hu : args.help_usage = false)
    (hj : args.jobs_count ≤ 0) :
    main args w =
      { exitCode := w.childExit, childSpawned := true, childEnv := none,
        backendCreated := false, tokensRead := 0, auditCompared := false,
        stderr := [] } :=
  main_noop_eq args w hc hu hj

/-- Concrete arguments for the C5 witness: jobs_count = 0. -/
def argsZero : Args :=
  { pipe := false, fifo := "jobserver_pool", no_check := false,
    help_usage := false, jobs_count := 0, command := ["make"] }

/-- Witness for C5 at jobs_count = 0. -/
theorem c5_nonpositive_noop_witness :
    argsZero.command ≠ [] ∧ argsZero.help_usage = false ∧
    argsZero.jobs_count ≤ 0 ∧
    main argsZero worldA =
      { exitCode := worldA.childExit, childSpawned := true, childEnv := none,
        backendCreated := false, tokensRead := 0, auditCompared := false,
        stderr := [] } :=
  ⟨by decide, by decide, by decide,
    c5_nonpositive_noop argsZero worldA (by decide) (by decide) (by decide)⟩

/-- C6: for every jobs_count > 0 and every FIFO path, the advertised
MAKEFLAGS value equals exactly " -j" ++ jobs_count ++
" --jobserver-auth=fifo:" ++ abspath(path). -/
theorem c6_fifo_makeflags_value (args : Args) (w : World)
    (hc : args.command ≠ []) (hu : args.help_usage = false)
    (hp : args.pipe = false) (hj : 0 < args.jobs_count) :
    ((main args w).childEnv.bind fun e => e "MAKEFLAGS") =
      some (" -j" ++ toString args.jobs_count ++ " --jobserver-auth=fifo:"
        ++ w.absPath args.fifo) := by
  rw [main_fifo_eq args w hc hu hp hj]
  unfold runResult
  split_ifs <;> simp [Env.set, fifoMakeflags]

/-- Concrete arguments for the C6 and C9 witnesses: FIFO mode with
jobs_count = 10, matching concrete scenario A of the spec. -/
def argsTen : Args :=
  { pipe := false, fifo := "jobserver_pool", no_check := false,
    help_usage := false, jobs_count := 10, command := ["make"] }

/-- Witness for C6: jobs_count = 10 and the default FIFO path yield the
value " -j10 --jobserver-auth=fifo:jobserver_pool" (abspath modelled as
the identity in worldA). -/
theorem c6_fifo_makeflags_value_witness :
    argsTen.command ≠ [] ∧ argsTen.help_usage = false ∧
    argsTen.pipe = false ∧ (0 : Int) < argsTen.jobs_count ∧
    ((main argsTen worldA).childEnv.bind fun e => e "MAKEFLAGS") =
      some " -j10 --jobserver-auth=fifo:jobserver_pool" := by
  refine ⟨by decide, by decide, by decide, by decide, ?_⟩
  rw [c6_fifo_makeflags_value argsTen worldA (by decide) (by decide)
    (by decide) (by decide)]
  decide

/-- Concrete arguments missing the command, for C7. -/
def argsNoCmd : Args :=
  { pipe := false, fifo := "jobserver_pool", no_check := false,
    help_usage := false, jobs_count := 4, command := [] }

/-- C7 counterexample: with no command supplied, no child is spawned and
the process exits with argparse's usage-error code 2, not 1 as the claim
states. -/
theorem c7_counterexample :
    (main argsNoCmd worldA).childSpawned = false ∧
    (main argsNoCmd worldA).exitCode = 2 ∧
    (main argsNoCmd worldA).exitCode ≠ 1 := by
  refine ⟨?_, ?_, ?_⟩ <;> decide

/-- C7 (amended): if no command argument is supplied (and --help-usage
was not requested), no child is spawned and the process exits with exit
code 2, the usage-error code of argparse's parser.error. -/
theorem c7_no_command_exit_two (args : Args) (w : World)
    (hu : args.help_usage = false) (hc : args.command = []) :
    (main args w).childSpawned = false ∧ (main args w).exitCode = 2 := by
  simp [main, hu, hc, parserErrorResult]

/-- Witness for C7 (amended). -/
theorem c7_no_command_exit_two_witness :
    argsNoCmd.help_usage = false ∧ argsNoCmd.command = [] ∧
    ((main argsNoCmd worldA).childSpawned = false ∧
     (main argsNoCmd worldA).exitCode = 2) :=
  ⟨by decide, by decide, c7_no_command_exit_two argsNoCmd worldA
    (by decide) (by decide)⟩

/-- C8 counterexample: auditing a semaphore holding 1 token with
jobs_count = 3 leaves the semaphore holding 2 tokens, not its pre-audit
count of 1 — the measuring increment is not compensated. -/
theorem c8_counterexample :
    ((check_sem_count { count := 1, maxCount := 5 } 3).toOption.map
        fun r => r.2.1.count) = some 2 ∧
    ((check_sem_count { count := 1, maxCount := 5 } 3).toOption.map
        fun r => r.2.1.count) ≠ some 1 := by
  constructor <;> decide

/-- C8 (amended): the semaphore audit issues a single increment and
takes as its measurement the count immediately prior to that increment;
no compensating decrement follows, so when the increment succeeds the
semaphore is left with its pre-audit count plus one. -/
theorem c8_sem_peek (s : Semaphore) (n : Int) (hn : 1 < n)
    (hs : s.count + 1 ≤ s.maxCount) :
    releaseSemaphore s 1 = Except.ok (s.count, { s with count := s.count + 1 }) ∧
    ((check_sem_count s n).toOption.map fun r => r.2.1) =
      some { s with count := s.count + 1 } := by
  have hrel : releaseSemaphore s 1 =
      Except.ok (s.count, { s with count := s.count + 1 }) := by
    simp [releaseSemaphore, hs]
  refine ⟨hrel, ?_⟩
  simp only [check_sem_count, if_neg (not_le.mpr hn), hrel]
  split_ifs <;> rfl

/-- Witness for C8 (amended) at count 1, maximum 5, jobs_count 3. -/
theorem c8_sem_peek_witness :
    (1 : Int) < 3 ∧ (1 : Nat) + 1 ≤ 5 ∧
    (releaseSemaphore { count := 1, maxCount := 5 } 1 =
        Except.ok (1, { count := 2, maxCount := 5 }) ∧
     ((check_sem_count { count := 1, maxCount := 5 } 3).toOption.map
        fun r => r.2.1) = some { count := 2, maxCount := 5 }) :=
  ⟨by decide, by decide,
    c8_sem_peek { count := 1, maxCount := 5 } 3 (by decide) (by decide)⟩

/-- The MAKEFLAGS value `main` advertises, as a function of the
arguments and the OS-supplied addresses only — in particular not of the
inherited environment. -/
def advertisedMakeflags (args : Args) (w : World) : String :=
  if args.pipe then pipeMakeflags args.jobs_count w.pipeFds.1 w.pipeFds.2
  else fifoMakeflags args.jobs_count (w.absPath args.fifo)

/-- C9: for every jobs_count > 0 the child environment is the parent
environment with the job-control variable MAKEFLAGS fully overwritten by
the freshly built value (a function of the arguments and backend address
only, never of an inherited value), and every other variable passed
through unchanged. -/
theorem c9_env_overwrite (args : Args) (w : World)
    (hc : args.command ≠ []) (hu : args.help_usage = false)
    (hj : 0 < args.jobs_count) :
    ((main args w).childEnv.map fun e => e "MAKEFLAGS") =
      some (some (advertisedMakeflags args w)) ∧
    ∀ k, k ≠ "MAKEFLAGS" →
      ((main args w).childEnv.map fun e => e k) = some (w.environ k) := by
  by_cases hp : args.pipe
  · rw [main_pipe_eq args w hc hu hp hj]
    unfold runResult advertisedMakeflags
    constructor
    · split_ifs <;> simp [Env.set, hp]
    · intro k hk
      split_ifs <;> simp [Env.set, hk]
  · have hp0 : args.pipe = false := by simpa using hp
    rw [main_fifo_eq args w hc hu hp0 hj]
    unfold runResult advertisedMakeflags
    constructor
    · split_ifs <;> simp [Env.set, hp0]
    · intro k hk
      split_ifs <;> simp [Env.set, hk]

/-- Witness for C9 at jobs_count = 10, FIFO mode: MAKEFLAGS is
overwritten and an unrelated variable PATH is inherited unchanged. -/
theorem c9_env_overwrite_witness :
    argsTen.command ≠ [] ∧ argsTen.help_usage = false ∧
    (0 : Int) < argsTen.jobs_count ∧
    ((main argsTen worldA).childEnv.map fun e => e "MAKEFLAGS") =
      some (some (advertisedMakeflags argsTen worldA)) ∧
    ((main argsTen worldA).childEnv.map fun e => e "PATH") =
      some (worldA.environ "PATH") := by
  have h := c9_env_overwrite argsTen worldA (by decide) (by decide) (by decide)
  exact ⟨by decide, by decide, by decide, h.1, h.2 "PATH" (by decide)⟩

/-- One pass of the drain loop over its immediately available bytes:
starting un-done with counter c, after length + 1 iterations the loop is
done with counter c + length. -/
lemma loopIter_run (l : List UInt8) (e : DrainEnd) :
    ∀ c : Nat,
      loopIter (l.length + 1) { buffer := l, atEnd := e, readCount := c, done := false } =
        { buffer := [], atEnd := e, readCount := c + l.length, done := true } := by
  induction l with
  | nil =>
    intro c
    simp [loopIter, loopStep]
  | cons a rest ih =>
    intro c
    have hstep : loopStep { buffer := a :: rest, atEnd := e, readCount := c, done := false } =
        { buffer := rest, atEnd := e, readCount := c + 1, done := false } := by
      simp [loopStep]
    have harith : c + 1 + rest.length = c + (a :: rest).length := by
      simp [List.length_cons]
      omega
    calc loopIter ((a :: rest).length + 1)
          { buffer := a :: rest, atEnd := e, readCount := c, done := false }
        = loopIter (rest.length + 1)
          (loopStep { buffer := a :: rest, atEnd := e, readCount := c, done := false }) := rfl
      _ = loopIter (rest.length + 1)
          { buffer := rest, atEnd := e, readCount := c + 1, done := false } := by rw [hstep]
      _ = { buffer := [], atEnd := e, readCount := c + 1 + rest.length, done := true } := ih (c + 1)
      _ = { buffer := [], atEnd := e, readCount := c + (a :: rest).length, done := true } := by
          rw [harith]

/-- C10: for every jobs_count > 1 and every k bytes immediately
available on the read descriptor, the drain loop of check_pipe_tokens
terminates: each iteration either consumes one byte or breaks on a
zero-length read or on BlockingIOError, so within k + 1 reads the loop
is done with read_count = k, and check_pipe_tokens indeed reads exactly
k tokens. -/
theorem c10_drain_terminates (buf : List UInt8) (e : DrainEnd) (n : Int)
    (hn : 1 < n) :
    (loopIter (buf.length + 1)
      { buffer := buf, atEnd := e, readCount := 0, done := false }).done = true ∧
    (loopIter (buf.length + 1)
      { buffer := buf, atEnd := e, readCount := 0, done := false }).readCount =
      buf.length ∧
    (check_pipe_tokens { available := buf, atEnd := e } n).tokensRead =
      buf.length := by
  have h := loopIter_run buf e 0
  refine ⟨by rw [h], by rw [h]; simp, ?_⟩
  simp only [check_pipe_tokens, if_neg (not_le.mpr hn), drain_zero]
  split_ifs <;> rfl

/-- Witness for C10 with two bytes available and jobs_count = 3. -/
theorem c10_drain_terminates_witness :
    (1 : Int) < 3 ∧
    ((loopIter ([tokenByte, tokenByte].length + 1)
        { buffer := [tokenByte, tokenByte], atEnd := DrainEnd.wouldBlock,
          readCount := 0, done := false }).done = true ∧
     (loopIter ([tokenByte, tokenByte].length + 1)
        { buffer := [tokenByte, tokenByte], atEnd := DrainEnd.wouldBlock,
          readCount := 0, done := false }).readCount = [tokenByte, tokenByte].length ∧
     (check_pipe_tokens
        { available := [tokenByte, tokenByte], atEnd := DrainEnd.wouldBlock }
        3).tokensRead = [tokenByte, tokenByte].length) :=
  ⟨by decide, c10_drain_terminates [tokenByte, tokenByte] DrainEnd.wouldBlock 3 (by decide)⟩
